import Mathlib

/-!
Shallow embedding of the ms_ocr document-reconstruction core:
the layout classifier (`src/ms_ocr/layout/rules.py`, `pipeline.py`),
the element merger (`src/ms_ocr/layout/detector.py`) and the two
grouping implementations (`src/ms_ocr/exporters/gamma_exporter.py`,
`gamma_text_exporter.py`), together with proofs about them.

Python strings are modelled as Lean `String`, floats as `ℚ`
(only order comparisons on them occur in the embedded code),
Python `None`-able fields as `Option`.
-/

namespace MsOcr

/-- Python `str.strip()` whitespace set (ASCII part; the embedded code
only ever feeds ASCII whitespace into these predicates). -/
def isPySpace (c : Char) : Bool :=
  c == ' ' || c == '\t' || c == '\n' || c == '\r' || c == '\x0b' || c == '\x0c'

/-- Python `s.strip()`: drop leading and trailing whitespace. -/
def pyStrip (s : String) : String :=
  ⟨((s.data.dropWhile isPySpace).reverse.dropWhile isPySpace).reverse⟩

/-- Python `s.lstrip(chars)`: drop every leading character belonging to `chars`. -/
def pyLStrip (chars : List Char) (s : String) : String :=
  ⟨s.data.dropWhile (fun c => chars.contains c)⟩

/-- Python `s.isupper()` (ASCII approximation: "cased" = ASCII letter;
the repository's heuristics are exercised on such text). -/
def pyIsUpper (s : String) : Bool :=
  s.data.any Char.isAlpha && s.data.all (fun c => !c.isAlpha || c.isUpper)

/-- Python `sep.join(xs)`. -/
def pyJoin (sep : String) (xs : List String) : String :=
  String.intercalate sep xs

/-- Python `s.split(".")` on the character list: split at every `'.'`,
keeping empty groups (no merging of separators). -/
def splitDot (cs : List Char) : List (List Char) :=
  cs.foldr
    (fun c acc =>
      if c = '.' then [] :: acc
      else
        match acc with
        | g :: gs => (c :: g) :: gs
        | [] => [[c]])
    [[]]

theorem splitDot_cons (c : Char) (cs : List Char) :
    splitDot (c :: cs) =
      if c = '.' then [] :: splitDot cs
      else
        match splitDot cs with
        | g :: gs => (c :: g) :: gs
        | [] => [[c]] := rfl

/-- `splitDot` never returns the empty list of groups. -/
theorem splitDot_ne_nil (cs : List Char) : splitDot cs ≠ [] := by
  induction cs with
  | nil => simp [splitDot]
  | cons c cs ih =>
    rw [splitDot_cons]
    by_cases h : c = '.'
    · simp [h]
    · cases hsd : splitDot cs with
      | nil => simp [h]
      | cons g gs => simp [h]

/-- Python `len(s.split("."))` equals (number of dots) + 1. -/
theorem splitDot_length (cs : List Char) :
    (splitDot cs).length = cs.count '.' + 1 := by
  induction cs with
  | nil => simp [splitDot]
  | cons c cs ih =>
    rw [splitDot_cons]
    by_cases h : c = '.'
    · simp [h, List.count_cons, ih]
    · cases hsd : splitDot cs with
      | nil => exact absurd hsd (splitDot_ne_nil cs)
      | cons g gs =>
        rw [hsd] at ih
        simpa [List.count_cons, h] using ih

/-! ### Data model (`readers/pdf_reader.py`, `layout/rules.py`) -/

/-- `TextBlock` from `readers/pdf_reader.py` (fields in source order;
`bbox = (x0, y0, x1, y1)`). -/
structure TextBlock where
  text : String
  bbox : ℚ × ℚ × ℚ × ℚ
  font_size : ℚ
  font_name : String
  is_bold : Bool
  is_italic : Bool
  page_num : Nat
deriving DecidableEq, Repr

/-- `LayoutElement` from `layout/rules.py`.  The `metadata` dict is omitted:
nothing in the embedded code ever reads it back (the spec marks `attributes`
as safe to drop). -/
structure LayoutElement where
  type : String
  text : String
  level : Option Nat := none
  page_num : Nat := 0
  bbox : Option (ℚ × ℚ × ℚ × ℚ) := none
deriving DecidableEq, Repr

/-- `LayoutRules.__init__` configuration (`layout/rules.py`). -/
structure LayoutRules where
  title_min_size : ℚ := 16
  heading_min_size : ℚ := 12
  body_size : ℚ := 10
deriving DecidableEq, Repr

def defaultLayoutRules : LayoutRules := {}

/-! ### Regex prefixes used by the classifiers

Each Python regex below is anchored (`re.match`) and used only as a
match test or for its leading groups; the greedy scans cannot backtrack
successfully (shortening a `\d+` run leaves a digit, which matches
neither `\.`, `[.)]` nor `\s`), so a deterministic greedy parse is an
exact translation. -/

/-- The bullet glyph class of `^[•●○■□▪▫\-\*]\s+`. -/
def bulletGlyphs : List Char := ['•', '●', '○', '■', '□', '▪', '▫', '-', '*']

/-- `re.match(r"^[•●○■□▪▫\-\*]\s+", text)` succeeds. -/
def bulletStart (s : String) : Bool :=
  match s.data with
  | c :: c2 :: _ => bulletGlyphs.contains c && isPySpace c2
  | _ => false

/-- `re.match(r"^\d+[\.)]\s+", text)` succeeds. -/
def numberedStart (s : String) : Bool :=
  let ds := s.data.takeWhile Char.isDigit
  let rest := s.data.dropWhile Char.isDigit
  !ds.isEmpty &&
    match rest with
    | c :: c2 :: _ => (c == '.' || c == ')') && isPySpace c2
    | _ => false

/-- `re.match(r"^[a-z][\.)]\s+", text, re.IGNORECASE)` succeeds. -/
def letteredStart (s : String) : Bool :=
  match s.data with
  | c :: c2 :: c3 :: _ => c.isAlpha && (c2 == '.' || c2 == ')') && isPySpace c3
  | _ => false

/-- `LayoutRules._is_list_item`. -/
def is_list_item (text : String) : Bool :=
  bulletStart text || numberedStart text || letteredStart text

/-- `LayoutRules._get_list_level`: count leading whitespace of the given
text; `(spaces // 2) + 1` when positive, else `1`. -/
def get_list_level (text : String) : Nat :=
  let spaces := (text.data.takeWhile isPySpace).length
  if spaces > 0 then spaces / 2 + 1 else 1

/-- `LayoutRules._get_heading_level_from_number`: `min(len(num.split(".")), 6)`. -/
def get_heading_level_from_number (section_num : String) : Nat :=
  min (splitDot section_num.data).length 6

/-- `LayoutRules._get_heading_level_from_size`. -/
def get_heading_level_from_size (R : LayoutRules) (font_size : ℚ) : Nat :=
  if R.title_min_size ≤ font_size then 1
  else if R.heading_min_size + 4 ≤ font_size then 2
  else if R.heading_min_size + 2 ≤ font_size then 3
  else if R.heading_min_size ≤ font_size then 4
  else 5

/-- `LayoutRules._is_title`. -/
def is_title (R : LayoutRules) (block : TextBlock) : Bool :=
  let text := pyStrip block.text
  if R.title_min_size ≤ block.font_size then true
  else if pyIsUpper text && block.is_bold && decide (5 < text.length) then true
  else if block.is_bold && decide (text.length < 100) then true
  else false

/-- `LayoutRules._is_heading`. -/
def is_heading (R : LayoutRules) (block : TextBlock) : Bool :=
  if R.heading_min_size ≤ block.font_size && R.body_size < block.font_size then true
  else if block.is_bold && decide (5 < (pyStrip block.text).length)
      && decide ((pyStrip block.text).length < 100) then true
  else false

/-! ### Greedy parse of `^(\d+(?:\.\d+)*)` plus trailing `\s+` -/

/-- Consume repeated `\.\d+` groups (fuel-indexed so the kernel can
reduce it; the caller supplies `fuel = cs.length`, always sufficient
since every step consumes at least one character). -/
def sectionTailF : Nat → List Char → List Char × List Char
  | 0, cs => ([], cs)
  | Nat.succ fuel, cs =>
    match cs with
    | '.' :: rest =>
      if (rest.head?.map Char.isDigit).getD false then
        let ds := rest.takeWhile Char.isDigit
        let r2 := rest.dropWhile Char.isDigit
        let (more, r3) := sectionTailF fuel r2
        ('.' :: ds ++ more, r3)
      else ([], cs)
    | _ => ([], cs)

/-- Greedy match of `^(\d+(?:\.\d+)*)\s+` against `s`: on success returns
the numeric prefix (regex group 1) and the remainder after the whitespace
run. -/
def parseSection (s : String) : Option (String × String) :=
  let ds := s.data.takeWhile Char.isDigit
  let r1 := s.data.dropWhile Char.isDigit
  if ds.isEmpty then none
  else
    let (tail, r2) := sectionTailF r1.length r1
    let ws := r2.takeWhile isPySpace
    let rest := r2.dropWhile isPySpace
    if ws.isEmpty then none else some (⟨ds ++ tail⟩, ⟨rest⟩)

/-- Full match of `re.match(r"^(\d+(?:\.\d+)*)\s+(.+)$", text)`, returning
groups `(1, 2)`.  Beyond the `parseSection` prefix this needs `(.+)$`:
a non-empty remainder containing no newline (`.` never matches `'\n'`,
and `$` sits at the end since `text` is stripped, hence cannot end in
whitespace — so all backtracking alternatives also fail on a newline). -/
def matchSectionFull (s : String) : Option (String × String) :=
  match parseSection s with
  | some (num, rest) =>
    if rest.isEmpty || rest.data.contains '\n' then none else some (num, rest)
  | none => none

/-! ### Metadata-aware classifier (`LayoutRules.classify_block`) -/

/-- `LayoutRules.classify_block`, decision order as in the source:
list item, then title, then numbered heading, then size/style heading,
else paragraph. -/
def classify_block (R : LayoutRules) (block : TextBlock) : LayoutElement :=
  let text := pyStrip block.text
  if is_list_item text then
    { type := "list_item", text := text, level := some (get_list_level text),
      page_num := block.page_num, bbox := some block.bbox }
  else if is_title R block then
    { type := "title", text := text, level := some 1,
      page_num := block.page_num, bbox := some block.bbox }
  else
    match matchSectionFull text with
    | some (section_num, _) =>
      { type := "heading", text := text,
        level := some (get_heading_level_from_number section_num),
        page_num := block.page_num, bbox := some block.bbox }
    | none =>
      if is_heading R block then
        { type := "heading", text := text,
          level := some (get_heading_level_from_size R block.font_size),
          page_num := block.page_num, bbox := some block.bbox }
      else
        { type := "paragraph", text := text,
          page_num := block.page_num, bbox := some block.bbox }

/-! ### Metadata-free classifier (`ProcessingPipeline._classify_ocr_line`) -/

/-- `ProcessingPipeline._classify_ocr_line` (`pipeline.py`).  Returns
`none` exactly where the Python raises: when the gating prefix regex
`^\d+(?:\.\d+)*\s+` matches but the grouped regex
`^(\d+(?:\.\d+)*)\s+(.+)$` does not (then `section_match.group(1)`
dereferences `None`). -/
def classify_ocr_line (line : String) (page_num : Nat) : Option LayoutElement :=
  let text := pyStrip line
  match parseSection text with
  | some _ =>
    match matchSectionFull text with
    | some (section_num, _) =>
      some { type := "heading", text := text,
             level := some (splitDot section_num.data).length,
             page_num := page_num }
    | none => none
  | none =>
    if bulletStart text || numberedStart text then
      some { type := "list_item", text := text, page_num := page_num }
    else if pyIsUpper text && decide (5 < text.length) && decide (text.length < 100) then
      some { type := "heading", text := text, level := some 2, page_num := page_num }
    else
      some { type := "paragraph", text := text, page_num := page_num }

/-! ### Repetition filter (`LayoutRules.detect_headers_footers`) -/

/-- `LayoutRules._find_repeated_texts`: the set of strings whose
frequency among `texts` reaches `threshold` (Python float division
modelled exactly over `ℚ`). -/
def find_repeated_texts (texts : List String) (threshold : ℚ) : Finset String :=
  if texts.isEmpty then ∅
  else texts.toFinset.filter fun t =>
    threshold ≤ (texts.count t : ℚ) / (texts.length : ℚ)

/-- `sorted(blocks, key=lambda b: b.bbox[1])`: stable sort by `y0`
(Python's sort and `List.mergeSort` are both stable). -/
def sortByY (blocks : List TextBlock) : List TextBlock :=
  blocks.mergeSort fun a b => a.bbox.2.1 ≤ b.bbox.2.1

/-- The per-page collection loop of `detect_headers_footers`: top text
from every non-empty page, bottom text from every page with at least
two blocks, both trimmed. -/
def collectTopBottom (blocks_by_page : List (List TextBlock)) :
    List String × List String :=
  (blocks_by_page.filterMap fun blocks =>
      if blocks.isEmpty then none
      else (sortByY blocks).head?.map fun b => pyStrip b.text,
   blocks_by_page.filterMap fun blocks =>
      if blocks.length ≤ 1 then none
      else (sortByY blocks).getLast?.map fun b => pyStrip b.text)

/-- `LayoutRules.detect_headers_footers`. -/
def detect_headers_footers (blocks_by_page : List (List TextBlock))
    (threshold : ℚ) : Finset String × Finset String :=
  if blocks_by_page.length < 3 then (∅, ∅)
  else
    let (tops, bottoms) := collectTopBottom blocks_by_page
    (find_repeated_texts tops threshold, find_repeated_texts bottoms threshold)

/-! ### Element merger (`LayoutDetector.merge_elements`) -/

/-- The merging condition of the loop in `LayoutDetector.merge_elements`:
both consecutive elements are paragraphs on the same page. -/
def mergeablePair (cur e : LayoutElement) : Bool :=
  cur.type == "paragraph" && e.type == "paragraph" && e.page_num == cur.page_num

/-- The loop body of `merge_elements`: `cur` plays `current`, absorbing
mergeable successors by text concatenation (single separating space). -/
def mergeGo : LayoutElement → List LayoutElement → List LayoutElement
  | cur, [] => [cur]
  | cur, e :: rest =>
    if mergeablePair cur e then
      mergeGo { cur with text := cur.text ++ " " ++ e.text } rest
    else
      cur :: mergeGo e rest

/-- `LayoutDetector.merge_elements` (the Python mutates `current.text`
in place; the pure translation rebuilds the element). -/
def merge_elements : List LayoutElement → List LayoutElement
  | [] => []
  | e :: rest => mergeGo e rest

/-! ### Gamma JSON exporter (`exporters/gamma_exporter.py`, `json_schemas.py`) -/

/-- `GammaSlide` from `json_schemas.py` (all optional fields default
`None`). -/
structure GammaSlide where
  type : String
  title : String
  subtitle : Option String := none
  items : Option (List String) := none
  md : Option String := none
  image : Option String := none
  notes : Option String := none
  logo : Option String := none
deriving DecidableEq, Repr

/-- `create_cover_slide`. -/
def create_cover_slide (title : String) (subtitle : Option String)
    (logo : Option String) : GammaSlide :=
  { type := "cover", title := title, subtitle := subtitle, logo := logo }

/-- `create_section_slide`. -/
def create_section_slide (title : String) : GammaSlide :=
  { type := "section", title := title }

/-- `create_bullets_slide`. -/
def create_bullets_slide (title : String) (items : List String)
    (notes : Option String) : GammaSlide :=
  { type := "bullets", title := title, items := some items, notes := notes }

/-- `create_table_slide` (the table is consumed only through
`table.to_markdown()`, so tables are modelled by that string). -/
def create_table_slide (title : String) (markdown_table : String) : GammaSlide :=
  { type := "table", title := title, md := some markdown_table }

/-- The character set of `text.lstrip("•●○■□▪▫-*0123456789. \t")` used on
list items by both slide exporters. -/
def bulletStripChars : List Char :=
  ['•', '●', '○', '■', '□', '▪', '▫', '-', '*',
   '0', '1', '2', '3', '4', '5', '6', '7', '8', '9', '.', ' ', '\t']

/-- Loop state of `GammaExporter._build_slides` (slides accumulated so
far plus the mutable locals of the loop). -/
structure BuildState where
  slides : List GammaSlide
  current_section : Option String := none
  current_bullets : List String := []
  current_paragraphs : List String := []
  current_title : Option String := none
  slide_counter : Nat := 0
deriving DecidableEq, Repr

/-- `max_bullets_per_slide` in `_build_slides`. -/
def max_bullets_per_slide : Nat := 6

/-- `max_paragraphs_per_slide` in `_build_slides`. -/
def max_paragraphs_per_slide : Nat := 3

/-- The slides the "flush previous content" block of `_build_slides`
(lines 113-130) appends: nothing unless `current_title` is truthy
(Python: set *and* non-empty); a bullets slide (with the paragraphs
joined as notes) when bullets exist, else a paragraphs slide. -/
def flushEmitted (s : BuildState) : List GammaSlide :=
  match s.current_title with
  | some t =>
    if t.isEmpty then []
    else if s.current_bullets ≠ [] then
      [create_bullets_slide t (s.current_bullets.take max_bullets_per_slide)
        (if s.current_paragraphs ≠ [] then some (pyJoin "\n" s.current_paragraphs) else none)]
    else if s.current_paragraphs ≠ [] then
      [create_bullets_slide t (s.current_paragraphs.take max_paragraphs_per_slide) none]
    else []
  | none => []

/-- The "flush previous content" block of `_build_slides` (lines
113-130), also reused verbatim as the end-of-stream flush (lines
174-186, which leaves the emptied locals behind with no observable
difference). -/
def flushJson (s : BuildState) : BuildState :=
  if s.current_bullets ≠ [] ∨ s.current_paragraphs ≠ [] then
    { s with slides := s.slides ++ flushEmitted s,
             current_bullets := [], current_paragraphs := [] }
  else s

/-- The slide list appended by the auto-flush `if current_title:
slides.append(create_bullets_slide(current_title, items))` (Python
truthiness: one slide when the title is set and non-empty, nothing
otherwise). -/
def titleBulletsSlides (ct : Option String) (items : List String) : List GammaSlide :=
  match ct with
  | some t => if t.isEmpty then [] else [create_bullets_slide t items none]
  | none => []

/-- One iteration of the element loop of `GammaExporter._build_slides`. -/
def stepJson (s : BuildState) (e : LayoutElement) : BuildState :=
  if e.type = "title" then s
  else if e.type = "heading" then
    let s1 := flushJson s
    match e.level with
    | some 1 =>
      { s1 with slides := s1.slides ++ [create_section_slide e.text],
                current_section := some e.text, current_title := none }
    | some l =>
      if l ≤ 3 then { s1 with current_title := some e.text,
                              slide_counter := s1.slide_counter + 1 }
      else s1
    | none => s1  -- `element.level <= 3` raises on None; classifiers always level headings
  else if e.type = "list_item" then
    let text := pyLStrip bulletStripChars e.text
    if 2 < text.length then
      let bs := s.current_bullets ++ [text]
      if max_bullets_per_slide ≤ bs.length then
        let slides' := s.slides ++
          titleBulletsSlides s.current_title (bs.take max_bullets_per_slide)
        { s with slides := slides', current_bullets := [] }
      else { s with current_bullets := bs }
    else s
  else if e.type = "paragraph" then
    let text := pyStrip e.text
    if 20 < text.length then
      let ps := s.current_paragraphs ++ [text]
      if max_paragraphs_per_slide ≤ ps.length then
        let slides' := s.slides ++
          titleBulletsSlides s.current_title (ps.take max_paragraphs_per_slide)
        { s with slides := slides', current_paragraphs := [] }
      else { s with current_paragraphs := ps }
    else s
  else s

/-- `GammaExporter._detect_title`. -/
def detect_title (elements : List LayoutElement) : String :=
  match elements.find? fun e => e.type == "title" with
  | some e => e.text
  | none =>
    match elements.find? fun e => e.type == "heading" && e.level == some 1 with
    | some e => e.text
    | none => "Untitled Presentation"

/-- `level <= k` on an optional level, as the guard of
`_detect_subtitle` evaluates it (None would raise there; headings
always carry a level). -/
def levelLE (e : LayoutElement) (k : Nat) : Bool :=
  match e.level with
  | some l => l ≤ k
  | none => false

/-- `GammaExporter._detect_subtitle` scanning loop. -/
def detect_subtitle_go : Bool → List LayoutElement → Option String
  | _, [] => none
  | found, e :: rest =>
    if e.type = "title" then detect_subtitle_go true rest
    else if found ∧ e.type = "heading" ∧ levelLE e 2 then some e.text
    else detect_subtitle_go found rest

/-- `GammaExporter._detect_subtitle`. -/
def detect_subtitle (elements : List LayoutElement) : Option String :=
  detect_subtitle_go false elements

/-- `GammaExporter._build_slides`: cover slide, element loop, final
flush, then one table slide per extracted table. -/
def build_slides (logo : Option String) (elements : List LayoutElement)
    (tables : List String) : List GammaSlide :=
  let init : BuildState :=
    { slides := [create_cover_slide (detect_title elements) (detect_subtitle elements) logo] }
  let s := elements.foldl stepJson init
  let s2 := flushJson s
  s2.slides ++ tables.enum.map fun it =>
    create_table_slide ("Tabla " ++ toString (it.1 + 1)) it.2

/-! ### Gamma text exporter (`exporters/gamma_text_exporter.py`)

The exporter writes straight to a file; the model records the sequence
of written units (the file content is a fixed rendering of this event
sequence). -/

/-- One written unit of `GammaTextExporter.export`. -/
inductive TextEvent where
  | cover (title brand : String)
  | sectionHeader (text : String)
  | slide (title : String) (content : List String)
  | tableSlide (index : Nat) (md : String)
  | closing (brand : String) (slide_count : Nat)
deriving DecidableEq, Repr

/-- Loop state of `GammaTextExporter.export`. -/
structure TextState where
  events : List TextEvent
  current_slide_title : Option String := none
  current_content : List String := []
  slide_count : Nat := 0
deriving DecidableEq, Repr

/-- The loop-level auto-flush of `GammaTextExporter.export` (lines
88-93): runs after every non-`title` element; writes the first 8 items
and keeps the remainder, but only when a slide title is truthy (set and
non-empty). -/
def checkFlushText (s : TextState) : TextState :=
  if 8 ≤ s.current_content.length then
    match s.current_slide_title with
    | some t =>
      if t.isEmpty then s
      else
        { s with events := s.events ++ [TextEvent.slide t (s.current_content.take 8)],
                 slide_count := s.slide_count + 1,
                 current_content := s.current_content.drop 8 }
    | none => s
  else s

/-- The "flush previous slide" block at the top of the heading branch
of `GammaTextExporter.export` (`if current_slide_title and
current_content:`): emit the open slide (all accumulated content,
untruncated) provided the title is truthy (set and non-empty) and
content is non-empty.  The same code is the end-of-stream flush. -/
def textHeadFlush (s : TextState) : TextState :=
  match s.current_slide_title with
  | some t =>
    if ¬t.isEmpty ∧ s.current_content ≠ [] then
      { s with events := s.events ++ [TextEvent.slide t s.current_content],
               slide_count := s.slide_count + 1, current_content := [] }
    else s
  | none => s

/-- The `elif` chain of the element loop of `GammaTextExporter.export`
(the state just before the loop-level auto-flush check). -/
def stepTextCore (s : TextState) (e : LayoutElement) : TextState :=
  if e.type = "heading" then
    let sf := textHeadFlush s
    match e.level with
    | some 1 =>
      { sf with events := sf.events ++ [TextEvent.sectionHeader e.text],
                slide_count := sf.slide_count + 1, current_slide_title := none }
    | some l =>
      if l ≤ 3 then { sf with current_slide_title := some e.text } else sf
    | none => sf  -- `element.level <= 3` raises on None; headings always level
  else if e.type = "list_item" then
    let c := pyLStrip bulletStripChars e.text
    if 2 < c.length then
      { s with current_content := s.current_content ++ ["- " ++ c] }
    else s
  else if e.type = "paragraph" then
    let t := pyStrip e.text
    if 20 < t.length then
      if t.length < 200 then
        { s with current_content := s.current_content ++ ["- " ++ t] }
      else
        { s with current_content := s.current_content ++ ["\n" ++ t ++ "\n"] }
    else s
  else s

/-- One iteration of the element loop of `GammaTextExporter.export`
(a `title` element hits `continue`, skipping even the auto-flush). -/
def stepText (s : TextState) (e : LayoutElement) : TextState :=
  if e.type = "title" then s
  else checkFlushText (stepTextCore s e)

/-- `GammaTextExporter.export` as its sequence of written units (the
end-of-stream flush is the same guarded write as the heading flush). -/
def export_text_events (brand title : String) (elements : List LayoutElement)
    (tables : List String) : List TextEvent :=
  let s := elements.foldl stepText { events := [TextEvent.cover title brand] }
  let s2 := textHeadFlush s
  s2.events ++ tables.enum.map (fun it => TextEvent.tableSlide (it.1 + 1) it.2)
    ++ [TextEvent.closing brand (s2.slide_count + tables.length)]

/-! ### Idempotence of the element merger -/

theorem mergeablePair_textUpdate (cur e : LayoutElement) (t : String) :
    mergeablePair { cur with text := t } e = mergeablePair cur e := rfl

theorem mergeablePair_congr (cur : LayoutElement) {h e : LayoutElement}
    (ht : h.type = e.type) (hp : h.page_num = e.page_num) :
    mergeablePair cur h = mergeablePair cur e := by
  simp [mergeablePair, ht, hp]

/-- The merger loop always returns a list headed by an element with the
`type` and `page_num` of its seed. -/
theorem mergeGo_shape (xs : List LayoutElement) :
    ∀ cur, ∃ hd tl, mergeGo cur xs = hd :: tl ∧
      hd.type = cur.type ∧ hd.page_num = cur.page_num := by
  induction xs with
  | nil => exact fun cur => ⟨cur, [], rfl, rfl, rfl⟩
  | cons e rest ih =>
    intro cur
    cases h : mergeablePair cur e with
    | true =>
      obtain ⟨hd, tl, heq, ht, hp⟩ := ih { cur with text := cur.text ++ " " ++ e.text }
      exact ⟨hd, tl, by simp [mergeGo, h, heq], ht, hp⟩
    | false =>
      exact ⟨cur, mergeGo e rest, by simp [mergeGo, h], rfl, rfl⟩

/-- The output of the merger loop has no adjacent mergeable pair. -/
theorem mergeGo_chain (xs : List LayoutElement) :
    ∀ cur, List.Chain' (fun a b => mergeablePair a b = false) (mergeGo cur xs) := by
  induction xs with
  | nil => intro cur; simp [mergeGo]
  | cons e rest ih =>
    intro cur
    cases h : mergeablePair cur e with
    | true => simpa [mergeGo, h] using ih { cur with text := cur.text ++ " " ++ e.text }
    | false =>
      simp only [mergeGo, h, Bool.false_eq_true, if_false]
      obtain ⟨hd, tl, heq, ht, hp⟩ := mergeGo_shape rest e
      rw [heq]
      refine List.chain'_cons.mpr ⟨?_, ?_⟩
      · rw [mergeablePair_congr cur ht hp]; exact h
      · rw [← heq]; exact ih e

/-- On a list with no adjacent mergeable pair the merger loop is the
identity. -/
theorem mergeGo_of_chain (xs : List LayoutElement) :
    ∀ cur, List.Chain' (fun a b => mergeablePair a b = false) (cur :: xs) →
      mergeGo cur xs = cur :: xs := by
  induction xs with
  | nil => intro cur _; rfl
  | cons e rest ih =>
    intro cur hch
    rw [List.chain'_cons] at hch
    simp only [mergeGo, hch.1, Bool.false_eq_true, if_false]
    rw [ih e hch.2]

/-- C7: the element merger is idempotent — merging an already-merged
element list produces no further change. -/
theorem claim_C7 (xs : List LayoutElement) :
    merge_elements (merge_elements xs) = merge_elements xs := by
  cases xs with
  | nil => rfl
  | cons a rest =>
    show merge_elements (mergeGo a rest) = mergeGo a rest
    obtain ⟨hd, tl, heq, _, _⟩ := mergeGo_shape rest a
    rw [heq]
    show mergeGo hd tl = hd :: tl
    apply mergeGo_of_chain
    rw [← heq]
    exact mergeGo_chain rest a

/-! ### The repetition filter claims -/

/-- A non-empty page contributes exactly one (trimmed) top text. -/
theorem topEntry_some {blocks : List TextBlock} (h : blocks ≠ []) :
    ∃ x, (if blocks.isEmpty then none
          else (sortByY blocks).head?.map fun b => pyStrip b.text) = some x := by
  have h1 : blocks.isEmpty = false := by simpa using h
  rw [h1]
  have h2 : sortByY blocks ≠ [] := by
    intro hc
    apply h
    have hlen : (sortByY blocks).length = blocks.length :=
      List.length_mergeSort blocks
    rw [hc] at hlen
    exact List.length_eq_zero.mp hlen.symm
  cases hs : sortByY blocks with
  | nil => exact absurd hs h2
  | cons b bs => exact ⟨pyStrip b.text, by simp [hs]⟩

/-- C2: the repetition filter returns two empty sets whenever fewer
than 3 pages are supplied, regardless of their content; and given 5
pages, all non-empty, of which at least 4 share the same trimmed
top-fragment text `t`, with threshold `0.6`, the shared text `t` is in
the returned header set. -/
theorem claim_C2 :
    (∀ (bbp : List (List TextBlock)) (θ : ℚ), bbp.length < 3 →
        detect_headers_footers bbp θ = (∅, ∅)) ∧
    ∀ (p1 p2 p3 p4 p5 : List TextBlock) (t : String),
      p1 ≠ [] → p2 ≠ [] → p3 ≠ [] → p4 ≠ [] → p5 ≠ [] →
      4 ≤ (collectTopBottom [p1, p2, p3, p4, p5]).1.count t →
      t ∈ (detect_headers_footers [p1, p2, p3, p4, p5] (3/5)).1 := by
  constructor
  · intro bbp θ h
    simp [detect_headers_footers, h]
  · intro p1 p2 p3 p4 p5 t h1 h2 h3 h4 h5 hcount
    obtain ⟨x1, hx1⟩ := topEntry_some h1
    obtain ⟨x2, hx2⟩ := topEntry_some h2
    obtain ⟨x3, hx3⟩ := topEntry_some h3
    obtain ⟨x4, hx4⟩ := topEntry_some h4
    obtain ⟨x5, hx5⟩ := topEntry_some h5
    have htops : (collectTopBottom [p1, p2, p3, p4, p5]).1 = [x1, x2, x3, x4, x5] := by
      simp only [collectTopBottom, List.filterMap_cons, hx1, hx2, hx3, hx4, hx5,
        List.filterMap_nil]
    set tops := (collectTopBottom [p1, p2, p3, p4, p5]).1 with hdef
    have hlen : tops.length = 5 := by rw [htops]; rfl
    have hne : tops.isEmpty = false := by rw [htops]; rfl
    have hmem : t ∈ tops := by
      rw [← List.count_pos_iff]; omega
    have hratio : (3 : ℚ)/5 ≤ (tops.count t : ℚ) / (tops.length : ℚ) := by
      rw [hlen]
      have : (4 : ℚ) ≤ (tops.count t : ℚ) := by exact_mod_cast hcount
      push_cast
      linarith
    have : detect_headers_footers [p1, p2, p3, p4, p5] (3/5) =
        (find_repeated_texts tops (3/5),
         find_repeated_texts (collectTopBottom [p1, p2, p3, p4, p5]).2 (3/5)) := by
      simp [detect_headers_footers]
    rw [this]
    simp only [find_repeated_texts, hne, Bool.false_eq_true, if_false]
    exact Finset.mem_filter.mpr ⟨List.mem_toFinset.mpr hmem, hratio⟩

theorem sortByY_singleton (b : TextBlock) : sortByY [b] = [b] := by
  simp [sortByY]

/-- A sample block for concrete instantiations. -/
def wBlk (s : String) : TextBlock :=
  { text := s, bbox := (0, 0, 0, 0), font_size := 10, font_name := "f",
    is_bold := false, is_italic := false, page_num := 0 }

theorem claim_C2_witness :
    detect_headers_footers [[wBlk "Solo"]] (3/5) = (∅, ∅) ∧
    "Header" ∈ (detect_headers_footers
      [[wBlk "Header"], [wBlk "Header"], [wBlk "Header"], [wBlk "Header"],
       [wBlk "Other"]] (3/5)).1 := by
  constructor
  · exact claim_C2.1 [[wBlk "Solo"]] (3/5) (by decide)
  · refine claim_C2.2 [wBlk "Header"] [wBlk "Header"] [wBlk "Header"] [wBlk "Header"]
      [wBlk "Other"] "Header" (by simp) (by simp) (by simp) (by simp) (by simp) ?_
    have : (collectTopBottom [[wBlk "Header"], [wBlk "Header"], [wBlk "Header"],
        [wBlk "Header"], [wBlk "Other"]]).1 =
        [pyStrip "Header", pyStrip "Header", pyStrip "Header", pyStrip "Header",
         pyStrip "Other"] := by
      simp [collectTopBottom, sortByY_singleton, wBlk]
    rw [this]
    decide

/-! ### The metadata-free numbered-heading claims -/

/-- C3 counterexample: on the line `"2.3 Foo"` the metadata-free
classifier assigns `level = 2`, while the numeric prefix `"2.3"`
contains exactly one dot — the claimed `level = dot-count` is false. -/
theorem claim_C3_counterexample :
    (classify_ocr_line "2.3 Foo" 0).map LayoutElement.level = some (some 2) ∧
    "2.3".data.count '.' = 1 := by decide

/-- C3 (amended): for every OCR line whose trimmed text matches the
numbered-section prefix `^\d+(\.\d+)*\s+` followed by further text (a
non-empty, newline-free remainder), the metadata-free classifier
returns `kind = heading` with `level` equal to the number of dots in
the numeric prefix **plus one** (`len(num.split("."))`, uncapped). -/
theorem claim_C3 (line : String) (pg : Nat) (num rest : String)
    (hparse : parseSection (pyStrip line) = some (num, rest))
    (h1 : rest.isEmpty = false) (h2 : rest.data.contains '\n' = false) :
    classify_ocr_line line pg =
      some { type := "heading", text := pyStrip line,
             level := some (num.data.count '.' + 1), page_num := pg } := by
  simp only [classify_ocr_line, matchSectionFull, hparse, h1, h2, Bool.or_self,
    Bool.false_eq_true, if_false, splitDot_length]

theorem claim_C3_witness :
    classify_ocr_line "2.3.4 Subsection" 7 =
      some { type := "heading", text := "2.3.4 Subsection", level := some 3,
             page_num := 7 } :=
  (claim_C3 "2.3.4 Subsection" 7 "2.3.4" "Subsection" (by decide) (by decide)
    (by decide)).trans (by decide)

/-! ### The list-level claims (metadata-aware classifier) -/

theorem dropWhile_head_false {α : Type} {p : α → Bool} :
    ∀ {l : List α} {c : α}, (l.dropWhile p).head? = some c → p c = false := by
  intro l
  induction l with
  | nil => intro c h; simp [List.dropWhile] at h
  | cons a l ih =>
    intro c h
    by_cases hp : p a
    · rw [List.dropWhile_cons_of_pos hp] at h
      exact ih h
    · rw [List.dropWhile_cons_of_neg hp] at h
      simp only [List.head?_cons, Option.some.injEq] at h
      rw [← h]
      exact Bool.not_eq_true _ |>.mp hp

/-- A stripped string has no leading whitespace. -/
theorem pyStrip_takeWhile (s : String) :
    (pyStrip s).data.takeWhile isPySpace = [] := by
  show ((((s.data.dropWhile isPySpace).reverse.dropWhile isPySpace).reverse).takeWhile
    isPySpace) = []
  set m := s.data.dropWhile isPySpace with hm
  obtain ⟨t, ht⟩ := List.dropWhile_suffix (l := m.reverse) isPySpace
  cases hr : (m.reverse.dropWhile isPySpace).reverse with
  | nil => simp [hr]
  | cons c l =>
    have hmhead : m.head? = some c := by
      have : m = c :: (l ++ t.reverse) := by
        have h1 : m.reverse = t ++ m.reverse.dropWhile isPySpace := ht.symm
        have h2 : m = (m.reverse.dropWhile isPySpace).reverse ++ t.reverse := by
          calc m = m.reverse.reverse := (List.reverse_reverse m).symm
          _ = (t ++ m.reverse.dropWhile isPySpace).reverse := by rw [← h1]
          _ = (m.reverse.dropWhile isPySpace).reverse ++ t.reverse := by
              rw [List.reverse_append]
        rw [h2, hr]; simp
      rw [this]; rfl
    have hc : isPySpace c = false := dropWhile_head_false (by rw [← hm, hmhead])
    rw [List.takeWhile_cons_of_neg (by simp [hc])]

/-- `_get_list_level` always yields 1 on stripped text. -/
theorem get_list_level_pyStrip (s : String) : get_list_level (pyStrip s) = 1 := by
  unfold get_list_level
  rw [pyStrip_takeWhile]
  rfl

/-- C4 counterexample: the fragment `"  - item"` (two leading spaces) is
classified as a list item with `level = 1`, while the claimed formula
`leadingWhitespace / 2 + 1` applied to the fragment's text yields `2`. -/
theorem claim_C4_counterexample :
    classify_block defaultLayoutRules
      { text := "  - item", bbox := (0, 0, 0, 0), font_size := 10, font_name := "f",
        is_bold := false, is_italic := false, page_num := 0 } =
      { type := "list_item", text := "- item", level := some 1, page_num := 0,
        bbox := some (0, 0, 0, 0) } ∧
    ("  - item".data.takeWhile isPySpace).length / 2 + 1 = 2 := by decide

/-- C4 (amended): every fragment the metadata-aware classifier marks as
a list item receives `level = 1`: the classifier strips the text before
computing the level, so the leading-whitespace count it divides is
always 0. -/
theorem claim_C4 (R : LayoutRules) (block : TextBlock)
    (h : (classify_block R block).type = "list_item") :
    (classify_block R block).level = some 1 := by
  by_cases hl : is_list_item (pyStrip block.text)
  · simp only [classify_block, hl, if_true]
    rw [get_list_level_pyStrip]
  · exfalso
    rw [Bool.not_eq_true] at hl
    simp only [classify_block, hl, Bool.false_eq_true, if_false] at h
    cases h1 : is_title R block <;> simp only [h1, Bool.false_eq_true, if_false,
      if_true] at h
    · cases h2 : matchSectionFull (pyStrip block.text) with
      | some v => rw [h2] at h; simp at h
      | none =>
        rw [h2] at h
        cases h3 : is_heading R block <;>
          simp only [h3, Bool.false_eq_true, if_false, if_true] at h <;> simp at h
    · simp at h

theorem claim_C4_witness :
    (classify_block defaultLayoutRules (wBlk "- item")).level = some 1 :=
  claim_C4 defaultLayoutRules (wBlk "- item") (by decide)

/-! ### The title-rule claims (metadata-aware classifier) -/

/-- C5 counterexample: the fragment `"1. Intro"` with font size 20
(≥ `titleMinSize = 16`) is classified as a `list_item`, not a `title`:
the list-item rule is checked first, so the title rule is not applied
"regardless of text content". -/
theorem claim_C5_counterexample :
    defaultLayoutRules.title_min_size ≤ (20 : ℚ) ∧
    classify_block defaultLayoutRules
      { text := "1. Intro", bbox := (0, 0, 0, 0), font_size := 20, font_name := "f",
        is_bold := false, is_italic := false, page_num := 0 } =
      { type := "list_item", text := "1. Intro", level := some 1, page_num := 0,
        bbox := some (0, 0, 0, 0) } := by
  constructor
  · norm_num [defaultLayoutRules]
  · decide

/-- C5 (amended): every fragment with `font_size ≥ titleMinSize` whose
trimmed text does not match a list-item prefix is classified
`kind = title`, `level = 1`. -/
theorem claim_C5 (R : LayoutRules) (block : TextBlock)
    (hfs : R.title_min_size ≤ block.font_size)
    (hnl : is_list_item (pyStrip block.text) = false) :
    classify_block R block =
      { type := "title", text := pyStrip block.text, level := some 1,
        page_num := block.page_num, bbox := some block.bbox } := by
  have ht : is_title R block = true := by
    unfold is_title
    rw [if_pos hfs]
  simp [classify_block, hnl, ht]

theorem claim_C5_witness :
    classify_block defaultLayoutRules
      { text := "My Title", bbox := (0, 0, 0, 0), font_size := 20, font_name := "f",
        is_bold := false, is_italic := false, page_num := 3 } =
      { type := "title", text := "My Title", level := some 1, page_num := 3,
        bbox := some (0, 0, 0, 0) } :=
  (claim_C5 defaultLayoutRules _ (by norm_num [defaultLayoutRules]) (by decide)).trans
    (by decide)

/-! ### The JSON grouping flush, characterised -/

theorem flushJson_eq (s : BuildState) :
    flushJson s = { s with slides := s.slides ++ flushEmitted s,
                           current_bullets := [], current_paragraphs := [] } := by
  obtain ⟨sl, cs, cb, cp, ct, sc⟩ := s
  unfold flushJson flushEmitted
  by_cases hb : cb = [] <;> by_cases hp : cp = []
  · subst hb
    subst hp
    cases ct with
    | none => simp
    | some t => by_cases he : t.isEmpty <;> simp [he]
  all_goals simp [hb, hp]

/-- C9: consuming a heading of level ≥ 4 in the JSON grouping flushes
the open group's bullets and paragraphs (emitting them, under the
still-current title if any, as `flushEmitted` — a function of the prior
state only, so the heading's own text reaches no emitted slide), emits
no section slide, and leaves the current title unchanged, so subsequent
list items accumulate under the previous title. -/
theorem claim_C9 (s : BuildState) (txt : String) (l pg : Nat)
    (bb : Option (ℚ × ℚ × ℚ × ℚ)) (hl : 4 ≤ l) :
    stepJson s { type := "heading", text := txt, level := some l, page_num := pg,
                 bbox := bb } =
      { s with slides := s.slides ++ flushEmitted s,
               current_bullets := [], current_paragraphs := [] } := by
  rw [← flushJson_eq]
  unfold stepJson
  split
  · next hty => simp at hty
  · split
    · split
      · next heq => injection heq with h1; omega
      · next l2 heq =>
        injection heq with h1
        rw [if_neg (by omega)]
      · next heq => cases heq
    · next hty => exact absurd rfl hty

theorem claim_C9_witness :
    stepJson { slides := [], current_title := some "T", current_bullets := ["b1"] }
      { type := "heading", text := "Deep", level := some 4 } =
      { slides := [create_bullets_slide "T" ["b1"] none], current_title := some "T" } := by
  have h := claim_C9
    { slides := [], current_title := some "T", current_bullets := ["b1"] }
    "Deep" 4 0 none (by decide)
  exact h.trans (by decide)

/-! ### Elements the JSON grouping ignores leave its output unchanged -/

theorem find?_insert_false {α : Type} (p : α → Bool) (a : α) (l1 l2 : List α)
    (ha : p a = false) : (l1 ++ a :: l2).find? p = (l1 ++ l2).find? p := by
  induction l1 with
  | nil => simp [List.find?_cons, ha]
  | cons x l1 ih => by_cases hx : p x <;> simp [List.find?_cons, hx, ih]

theorem detect_title_insert (e : LayoutElement) (l1 l2 : List LayoutElement)
    (h1 : e.type ≠ "title") (h2 : e.type ≠ "heading") :
    detect_title (l1 ++ e :: l2) = detect_title (l1 ++ l2) := by
  unfold detect_title
  rw [find?_insert_false _ e l1 l2 (by simp [h1]),
    find?_insert_false _ e l1 l2 (by simp [h2])]

theorem detect_subtitle_go_insert (e : LayoutElement) (h1 : e.type ≠ "title")
    (h2 : e.type ≠ "heading") :
    ∀ (l1 : List LayoutElement) (found : Bool) (l2 : List LayoutElement),
      detect_subtitle_go found (l1 ++ e :: l2) = detect_subtitle_go found (l1 ++ l2) := by
  intro l1
  induction l1 with
  | nil =>
    intro found l2
    simp only [List.nil_append, detect_subtitle_go]
    rw [if_neg h1, if_neg (by simp [h2])]
  | cons x l1 ih =>
    intro found l2
    simp only [List.cons_append, detect_subtitle_go]
    split
    · exact ih true l2
    · split
      · rfl
      · exact ih found l2

/-- A dropped list item (cleaned text of length ≤ 2) leaves the JSON
grouping state untouched. -/
theorem stepJson_drop_item (s : BuildState) (e : LayoutElement)
    (ht : e.type = "list_item")
    (hc : (pyLStrip bulletStripChars e.text).length ≤ 2) :
    stepJson s e = s := by
  unfold stepJson
  rw [if_neg (by rw [ht]; decide), if_neg (by rw [ht]; decide), if_pos ht]
  simp only [if_neg (show ¬ 2 < (pyLStrip bulletStripChars e.text).length by omega)]

/-- An insignificant paragraph (trimmed length ≤ 20) leaves the JSON
grouping state untouched. -/
theorem stepJson_drop_para (s : BuildState) (e : LayoutElement)
    (ht : e.type = "paragraph") (hp : (pyStrip e.text).length ≤ 20) :
    stepJson s e = s := by
  unfold stepJson
  rw [if_neg (by rw [ht]; decide), if_neg (by rw [ht]; decide),
    if_neg (by rw [ht]; decide), if_pos ht]
  simp only [if_neg (show ¬ 20 < (pyStrip e.text).length by omega)]

/-- Inserting an element that the step function ignores anywhere in the
stream leaves the whole JSON slide output unchanged. -/
theorem build_slides_insert (e : LayoutElement) (hstep : ∀ s, stepJson s e = s)
    (h1 : e.type ≠ "title") (h2 : e.type ≠ "heading")
    (logo : Option String) (l1 l2 : List LayoutElement) (tables : List String) :
    build_slides logo (l1 ++ e :: l2) tables = build_slides logo (l1 ++ l2) tables := by
  unfold build_slides
  rw [detect_title_insert e l1 l2 h1 h2]
  rw [show detect_subtitle (l1 ++ e :: l2) = detect_subtitle (l1 ++ l2) from
    detect_subtitle_go_insert e h1 h2 l1 false l2]
  simp only [List.foldl_append, List.foldl_cons, hstep]

/-- The effect of appending a cleaned bullet `c` in the JSON grouping:
add it to the open bullet list, auto-flushing (and discarding the
bullets when no title is set) once the capacity of 6 is reached. -/
def jsonItemAppend (s : BuildState) (c : String) : BuildState :=
  let bs := s.current_bullets ++ [c]
  if max_bullets_per_slide ≤ bs.length then
    let slides' := s.slides ++
      titleBulletsSlides s.current_title (bs.take max_bullets_per_slide)
    { s with slides := slides', current_bullets := [] }
  else { s with current_bullets := bs }

/-- C10: in both grouping implementations a consumed `list_item` is
cleaned by stripping every leading character drawn from
`"•●○■□▪▫-*0123456789. \t"` (so leading digits of the content itself
are removed too); when the cleaned text has length ≤ 2 the item is
silently dropped (the JSON output is unchanged by its presence, and the
text-exporter step only runs the loop-level flush check), otherwise the
cleaned text is appended as a bullet. -/
theorem claim_C10 (e : LayoutElement) (ht : e.type = "list_item") :
    ((pyLStrip bulletStripChars e.text).length ≤ 2 →
      (∀ (logo : Option String) (l1 l2 : List LayoutElement) (tables : List String),
        build_slides logo (l1 ++ e :: l2) tables = build_slides logo (l1 ++ l2) tables) ∧
      ∀ st : TextState, stepText st e = checkFlushText st) ∧
    (2 < (pyLStrip bulletStripChars e.text).length →
      (∀ s : BuildState, stepJson s e =
        jsonItemAppend s (pyLStrip bulletStripChars e.text)) ∧
      ∀ st : TextState, stepText st e =
        checkFlushText { st with current_content :=
          st.current_content ++ ["- " ++ pyLStrip bulletStripChars e.text] }) := by
  constructor
  · intro hc
    constructor
    · intro logo l1 l2 tables
      exact build_slides_insert e (fun s => stepJson_drop_item s e ht hc)
        (by rw [ht]; decide) (by rw [ht]; decide) logo l1 l2 tables
    · intro st
      simp only [stepText, stepTextCore, ht]
      simp only [show ¬("list_item" : String) = "title" by decide,
        show ¬("list_item" : String) = "heading" by decide, if_false, if_true,
        if_neg (show ¬ 2 < (pyLStrip bulletStripChars e.text).length by omega)]
  · intro h2c
    constructor
    · intro s
      simp only [stepJson, jsonItemAppend, ht]
      simp only [show ¬("list_item" : String) = "title" by decide,
        show ¬("list_item" : String) = "heading" by decide, if_false, if_true,
        if_pos h2c]
    · intro st
      simp only [stepText, stepTextCore, ht]
      simp only [show ¬("list_item" : String) = "title" by decide,
        show ¬("list_item" : String) = "heading" by decide, if_false, if_true,
        if_pos h2c]

theorem claim_C10_witness :
    pyLStrip bulletStripChars "1. 2024 results" = "results" ∧
    stepText { events := [] } { type := "list_item", text := "1. 2024 results" } =
      checkFlushText { events := [], current_content := ["- results"] } ∧
    build_slides none [{ type := "list_item", text := "- 12" }] [] =
      build_slides none [] [] := by
  refine ⟨by decide, ?_, ?_⟩
  · have h := ((claim_C10 { type := "list_item", text := "1. 2024 results" } rfl).2
      (by decide)).2 { events := [] }
    exact h.trans (by decide)
  · exact ((claim_C10 { type := "list_item", text := "- 12" } rfl).1
      (by decide)).1 none [] [] []

/-! ### No fully empty content group is ever emitted -/

/-- A slide is well-formed for C8 when, if it is a content ("bullets")
slide, its item list is non-empty. -/
def slideOk (sl : GammaSlide) : Prop := sl.type = "bullets" → sl.items ≠ some []

/-- Every `slide` event of the text exporter carries non-empty content. -/
def textEventsOk (evs : List TextEvent) : Prop :=
  ∀ t c, TextEvent.slide t c ∈ evs → c ≠ []

theorem take_ne_nil_of_ne {α : Type} (l : List α) (n : Nat) (hl : l ≠ [])
    (hn : n ≠ 0) : l.take n ≠ [] := by
  rw [Ne, List.take_eq_nil_iff]
  push_neg
  exact ⟨hn, hl⟩

theorem bullets_slide_ok (t : String) (items : List String) (notes : Option String)
    (h : items ≠ []) : slideOk (create_bullets_slide t items notes) := by
  intro _
  simp only [create_bullets_slide, Ne, Option.some.injEq]
  exact h

theorem titleBulletsSlides_ok (ct : Option String) (items : List String)
    (h : items ≠ []) : ∀ sl ∈ titleBulletsSlides ct items, slideOk sl := by
  unfold titleBulletsSlides
  cases ct with
  | none => simp
  | some t =>
    dsimp only
    by_cases he : t.isEmpty
    · simp [he]
    · rw [if_neg he]
      intro sl hsl
      rw [List.mem_singleton] at hsl
      subst hsl
      exact bullets_slide_ok _ _ _ h

theorem flushEmitted_ok (s : BuildState) : ∀ sl ∈ flushEmitted s, slideOk sl := by
  unfold flushEmitted
  cases hct : s.current_title with
  | none => simp
  | some t =>
    dsimp only
    by_cases he : t.isEmpty
    · simp [he]
    · rw [if_neg he]
      by_cases hb : s.current_bullets ≠ []
      · rw [if_pos hb]
        intro sl hsl
        rw [List.mem_singleton] at hsl
        subst hsl
        exact bullets_slide_ok _ _ _ (take_ne_nil_of_ne _ _ hb (by decide))
      · rw [if_neg hb]
        by_cases hp : s.current_paragraphs ≠ []
        · rw [if_pos hp]
          intro sl hsl
          rw [List.mem_singleton] at hsl
          subst hsl
          exact bullets_slide_ok _ _ _ (take_ne_nil_of_ne _ _ hp (by decide))
        · rw [if_neg hp]
          simp

/-- Each JSON-grouping step only appends slides, and every appended
slide is a well-formed one. -/
theorem stepJson_slides_append (s : BuildState) (e : LayoutElement) :
    ∃ extra, (stepJson s e).slides = s.slides ++ extra ∧ ∀ sl ∈ extra, slideOk sl := by
  by_cases ht : e.type = "title"
  · exact ⟨[], by simp [stepJson, ht], by simp⟩
  by_cases hh : e.type = "heading"
  · cases hl : e.level with
    | none =>
      exact ⟨flushEmitted s, by simp [stepJson, ht, hh, hl, flushJson_eq],
        flushEmitted_ok s⟩
    | some l =>
      match l with
      | 0 =>
        exact ⟨flushEmitted s, by simp [stepJson, ht, hh, hl, flushJson_eq],
          flushEmitted_ok s⟩
      | 1 =>
        refine ⟨flushEmitted s ++ [create_section_slide e.text], ?_, ?_⟩
        · simp [stepJson, ht, hh, hl, flushJson_eq]
        · intro sl hsl
          rcases List.mem_append.mp hsl with h1 | h2
          · exact flushEmitted_ok s sl h1
          · rw [List.mem_singleton] at h2
            subst h2
            intro habs
            simp [create_section_slide] at habs
      | (m + 2) =>
        refine ⟨flushEmitted s, ?_, flushEmitted_ok s⟩
        by_cases hc : m + 2 ≤ 3 <;> simp [stepJson, ht, hh, hl, hc, flushJson_eq]
  by_cases hli : e.type = "list_item"
  · by_cases h2 : 2 < (pyLStrip bulletStripChars e.text).length
    · by_cases h6 : max_bullets_per_slide ≤ s.current_bullets.length + 1
      · refine ⟨titleBulletsSlides s.current_title ((s.current_bullets ++
          [pyLStrip bulletStripChars e.text]).take max_bullets_per_slide),
          by simp [stepJson, ht, hh, hli, h2, h6], ?_⟩
        exact titleBulletsSlides_ok _ _ (take_ne_nil_of_ne _ _ (by simp) (by decide))
      · exact ⟨[], by simp [stepJson, ht, hh, hli, h2, h6], by simp⟩
    · exact ⟨[], by simp [stepJson, ht, hh, hli, h2], by simp⟩
  by_cases hp : e.type = "paragraph"
  · by_cases h20 : 20 < (pyStrip e.text).length
    · by_cases h3 : max_paragraphs_per_slide ≤ s.current_paragraphs.length + 1
      · refine ⟨titleBulletsSlides s.current_title ((s.current_paragraphs ++
          [pyStrip e.text]).take max_paragraphs_per_slide),
          by simp [stepJson, ht, hh, hli, hp, h20, h3], ?_⟩
        exact titleBulletsSlides_ok _ _ (take_ne_nil_of_ne _ _ (by simp) (by decide))
      · exact ⟨[], by simp [stepJson, ht, hh, hli, hp, h20, h3], by simp⟩
    · exact ⟨[], by simp [stepJson, ht, hh, hli, hp, h20], by simp⟩
  · exact ⟨[], by simp [stepJson, ht, hh, hli, hp], by simp⟩

theorem foldl_stepJson_slides_ok (l : List LayoutElement) :
    ∀ s : BuildState, (∀ sl ∈ s.slides, slideOk sl) →
      ∀ sl ∈ (l.foldl stepJson s).slides, slideOk sl := by
  induction l with
  | nil => intro s h; exact h
  | cons e l ih =>
    intro s h
    apply ih
    obtain ⟨extra, heq, hok⟩ := stepJson_slides_append s e
    rw [heq]
    intro sl hsl
    rcases List.mem_append.mp hsl with h1 | h2
    · exact h sl h1
    · exact hok sl h2

/-- The loop-level auto-flush of the text exporter only appends
non-empty slide events. -/
theorem checkFlushText_events_append (s : TextState) :
    ∃ extra, (checkFlushText s).events = s.events ++ extra ∧
      ∀ t c, TextEvent.slide t c ∈ extra → c ≠ [] := by
  by_cases hlen : 8 ≤ s.current_content.length
  · cases hct : s.current_slide_title with
    | none => exact ⟨[], by simp [checkFlushText, hlen, hct], by simp⟩
    | some t =>
      by_cases he : t.isEmpty
      · exact ⟨[], by simp [checkFlushText, hlen, hct, he], by simp⟩
      · refine ⟨[TextEvent.slide t (s.current_content.take 8)],
          by simp [checkFlushText, hlen, hct, he], ?_⟩
        intro t2 c2 hc
        rw [List.mem_singleton] at hc
        injection hc with ht2 hc2
        subst hc2
        refine take_ne_nil_of_ne _ _ ?_ (by decide)
        intro hnil
        rw [hnil] at hlen
        simp at hlen
  · exact ⟨[], by simp [checkFlushText, hlen], by simp⟩

/-- The heading/end-of-stream flush only appends a non-empty slide
event (or nothing). -/
theorem textHeadFlush_events_append (s : TextState) :
    ∃ extra, (textHeadFlush s).events = s.events ++ extra ∧
      ∀ t c, TextEvent.slide t c ∈ extra → c ≠ [] := by
  unfold textHeadFlush
  cases hct : s.current_slide_title with
  | none => exact ⟨[], by simp, by simp⟩
  | some t =>
    dsimp only
    by_cases hcond : ¬t.isEmpty ∧ s.current_content ≠ []
    · refine ⟨[TextEvent.slide t s.current_content], by rw [if_pos hcond], ?_⟩
      intro t2 c2 hc
      rw [List.mem_singleton] at hc
      injection hc with ht2 hc2
      subst hc2
      exact hcond.2
    · exact ⟨[], by rw [if_neg hcond]; simp, by simp⟩

/-- The `elif` chain of the text exporter only appends non-empty slide
events (the only slide event it can emit is the heading-triggered flush,
which is guarded by non-emptiness of the accumulated content). -/
theorem stepTextCore_events_append (s : TextState) (e : LayoutElement) :
    ∃ extra, (stepTextCore s e).events = s.events ++ extra ∧
      ∀ t c, TextEvent.slide t c ∈ extra → c ≠ [] := by
  by_cases hh : e.type = "heading"
  · obtain ⟨extra0, hev0, hok0⟩ := textHeadFlush_events_append s
    cases hl : e.level with
    | none => exact ⟨extra0, by simp [stepTextCore, hh, hl]; exact hev0, hok0⟩
    | some l =>
      match l with
      | 0 =>
        refine ⟨extra0, ?_, hok0⟩
        simp only [stepTextCore, hh, if_true, hl]
        simpa using hev0
      | 1 =>
        refine ⟨extra0 ++ [TextEvent.sectionHeader e.text], ?_, ?_⟩
        · simp only [stepTextCore, hh, if_true, hl]
          simp only [hev0]
          simp [List.append_assoc]
        · intro t c hc
          rcases List.mem_append.mp hc with h1 | h2
          · exact hok0 t c h1
          · rw [List.mem_singleton] at h2
            cases h2
      | (m + 2) =>
        refine ⟨extra0, ?_, hok0⟩
        by_cases hc : m + 2 ≤ 3 <;>
          (simp only [stepTextCore, hh, if_true, hl]; simp [hc, hev0])
  by_cases hli : e.type = "list_item"
  · by_cases h2 : 2 < (pyLStrip bulletStripChars e.text).length <;>
      exact ⟨[], by simp [stepTextCore, hh, hli, h2], by simp⟩
  by_cases hp : e.type = "paragraph"
  · by_cases h20 : 20 < (pyStrip e.text).length
    · by_cases h200 : (pyStrip e.text).length < 200 <;>
        exact ⟨[], by simp [stepTextCore, hh, hli, hp, h20, h200], by simp⟩
    · exact ⟨[], by simp [stepTextCore, hh, hli, hp, h20], by simp⟩
  · exact ⟨[], by simp [stepTextCore, hh, hli, hp], by simp⟩

theorem stepText_events_ok (s : TextState) (e : LayoutElement)
    (h : textEventsOk s.events) : textEventsOk (stepText s e).events := by
  unfold stepText
  by_cases ht : e.type = "title"
  · simpa [ht] using h
  · rw [if_neg ht]
    obtain ⟨e1, he1, hok1⟩ := stepTextCore_events_append s e
    obtain ⟨e2, he2, hok2⟩ := checkFlushText_events_append (stepTextCore s e)
    rw [he2, he1]
    intro t c hc
    rcases List.mem_append.mp hc with hc' | h2
    · rcases List.mem_append.mp hc' with h0 | h1
      · exact h t c h0
      · exact hok1 t c h1
    · exact hok2 t c h2

theorem foldl_stepText_events_ok (l : List LayoutElement) :
    ∀ s : TextState, textEventsOk s.events →
      textEventsOk (l.foldl stepText s).events := by
  induction l with
  | nil => intro s h; exact h
  | cons e l ih =>
    intro s h
    exact ih (stepText s e) (stepText_events_ok s e h)

/-- C8: neither grouping implementation ever emits a fully empty
content group: in the JSON exporter every emitted "bullets" slide has a
non-empty item list (empty open groups are suppressed at
heading-triggered flushes and at end of stream), and in the text
exporter every written slide has non-empty content. -/
theorem claim_C8 :
    (∀ (logo : Option String) (elements : List LayoutElement) (tables : List String)
        (sl : GammaSlide), sl ∈ build_slides logo elements tables →
        sl.type = "bullets" → sl.items ≠ some []) ∧
    ∀ (brand title : String) (elements : List LayoutElement) (tables : List String)
      (t : String) (c : List String),
      TextEvent.slide t c ∈ export_text_events brand title elements tables → c ≠ [] := by
  constructor
  · intro logo elements tables sl hmem hbul
    have h0 : ∀ sl2 ∈ ([create_cover_slide (detect_title elements)
        (detect_subtitle elements) logo] : List GammaSlide), slideOk sl2 := by
      intro sl2 h2
      rw [List.mem_singleton] at h2
      subst h2
      intro habs
      simp [create_cover_slide] at habs
    have h1 := foldl_stepJson_slides_ok elements
      { slides := [create_cover_slide (detect_title elements)
          (detect_subtitle elements) logo] } h0
    simp only [build_slides] at hmem
    rcases List.mem_append.mp hmem with hA | hB
    · rw [flushJson_eq] at hA
      rcases List.mem_append.mp hA with hA1 | hA2
      · exact h1 sl hA1 hbul
      · exact flushEmitted_ok _ sl hA2 hbul
    · rw [List.mem_map] at hB
      obtain ⟨it, _, heq⟩ := hB
      rw [← heq] at hbul
      simp [create_table_slide] at hbul
  · intro brand title elements tables t c hmem
    have h0 : textEventsOk [TextEvent.cover title brand] := by
      intro t2 c2 hc
      rw [List.mem_singleton] at hc
      cases hc
    have h1 := foldl_stepText_events_ok elements
      { events := [TextEvent.cover title brand] } h0
    set s := elements.foldl stepText { events := [TextEvent.cover title brand] } with hs
    have h2 : textEventsOk (textHeadFlush s).events := by
      obtain ⟨extra, heq, hok⟩ := textHeadFlush_events_append s
      rw [heq]
      intro t2 c2 hc
      rcases List.mem_append.mp hc with hA | hB
      · exact h1 t2 c2 hA
      · exact hok t2 c2 hB
    simp only [export_text_events, ← hs] at hmem
    rcases List.mem_append.mp hmem with hA | hB
    · rcases List.mem_append.mp hA with hA1 | hA2
      · exact h2 t c hA1
      · rw [List.mem_map] at hA2
        obtain ⟨it, _, heq⟩ := hA2
        cases heq
    · rw [List.mem_singleton] at hB
      cases hB

theorem claim_C8_witness :
    (create_bullets_slide "Topic" ["Hello world item"] none).items ≠ some [] ∧
    (["- Hello world item"] : List String) ≠ [] := by
  constructor
  · exact claim_C8.1 none
      [{ type := "heading", text := "Topic", level := some 2 },
       { type := "list_item", text := "Hello world item" }] []
      (create_bullets_slide "Topic" ["Hello world item"] none) (by decide) (by decide)
  · exact claim_C8.2 "B" "T"
      [{ type := "heading", text := "Topic", level := some 2 },
       { type := "list_item", text := "Hello world item" }] []
      "Topic" ["- Hello world item"] (by decide)

/-! ### Provenance of every item the text exporter emits -/

/-- `str` is the rendering of a qualifying element of `xs`: a list item
whose cleaned text is longer than 2 characters, or a paragraph whose
trimmed text is longer than 20 characters (rendered as a bullet below
200 characters, as an embedded block otherwise).  In particular no
paragraph with trimmed length ≤ 20 qualifies. -/
def goodItem (xs : List LayoutElement) (str : String) : Prop :=
  ∃ e ∈ xs,
    (e.type = "list_item" ∧ 2 < (pyLStrip bulletStripChars e.text).length ∧
      str = "- " ++ pyLStrip bulletStripChars e.text) ∨
    (e.type = "paragraph" ∧ 20 < (pyStrip e.text).length ∧
      ((pyStrip e.text).length < 200 ∧ str = "- " ++ pyStrip e.text ∨
       200 ≤ (pyStrip e.text).length ∧ str = "\n" ++ pyStrip e.text ++ "\n"))

/-- Invariant of the text-exporter loop: all accumulated content and
all content of already-written slides comes from qualifying elements. -/
def textProv (xs : List LayoutElement) (s : TextState) : Prop :=
  (∀ str ∈ s.current_content, goodItem xs str) ∧
  (∀ t c, TextEvent.slide t c ∈ s.events → ∀ str ∈ c, goodItem xs str)

theorem textHeadFlush_prov (xs : List LayoutElement) (s : TextState)
    (h : textProv xs s) : textProv xs (textHeadFlush s) := by
  unfold textHeadFlush
  cases hct : s.current_slide_title with
  | none => exact h
  | some t =>
    dsimp only
    by_cases hcond : ¬t.isEmpty ∧ s.current_content ≠ []
    · rw [if_pos hcond]
      refine ⟨by simp, ?_⟩
      intro t2 c2 hc
      rcases List.mem_append.mp hc with hA | hB
      · exact h.2 t2 c2 hA
      · rw [List.mem_singleton] at hB
        injection hB with ht2 hc2
        subst hc2
        exact h.1
    · rw [if_neg hcond]
      exact h
theorem checkFlushText_prov (xs : List LayoutElement) (s : TextState)
    (h : textProv xs s) : textProv xs (checkFlushText s) := by
  by_cases hlen : 8 ≤ s.current_content.length
  · cases hct : s.current_slide_title with
    | none =>
      have heq : checkFlushText s = s := by simp [checkFlushText, hlen, hct]
      rw [heq]; exact h
    | some t =>
      by_cases he : t.isEmpty
      · have heq : checkFlushText s = s := by simp [checkFlushText, hlen, hct, he]
        rw [heq]; exact h
      have heq : checkFlushText s =
          { s with events := s.events ++ [TextEvent.slide t (s.current_content.take 8)],
                   slide_count := s.slide_count + 1,
                   current_content := s.current_content.drop 8 } := by
        simp [checkFlushText, hlen, hct, he]
      rw [heq]
      refine ⟨?_, ?_⟩
      · intro str hstr
        exact h.1 str (List.drop_subset _ _ hstr)
      · intro t2 c2 hc
        rcases List.mem_append.mp hc with hA | hB
        · exact h.2 t2 c2 hA
        · rw [List.mem_singleton] at hB
          injection hB with ht2 hc2
          subst hc2
          intro str hstr
          exact h.1 str (List.take_subset _ _ hstr)
  · have heq : checkFlushText s = s := by simp [checkFlushText, hlen]
    rw [heq]; exact h

theorem stepTextCore_prov (xs : List LayoutElement) (s : TextState)
    (e : LayoutElement) (he : e ∈ xs) (h : textProv xs s) :
    textProv xs (stepTextCore s e) := by
  by_cases hh : e.type = "heading"
  · have hf := textHeadFlush_prov xs s h
    cases hl : e.level with
    | none =>
      have heq : stepTextCore s e = textHeadFlush s := by simp [stepTextCore, hh, hl]
      rw [heq]; exact hf
    | some l =>
      match l with
      | 0 =>
        have heq : stepTextCore s e =
            { textHeadFlush s with current_slide_title := some e.text } := by
          simp [stepTextCore, hh, hl]
        rw [heq]; exact hf
      | 1 =>
        have heq : stepTextCore s e =
            { textHeadFlush s with
              events := (textHeadFlush s).events ++ [TextEvent.sectionHeader e.text],
              slide_count := (textHeadFlush s).slide_count + 1,
              current_slide_title := none } := by
          simp [stepTextCore, hh, hl]
        rw [heq]
        refine ⟨hf.1, ?_⟩
        intro t c hc
        rcases List.mem_append.mp hc with hA | hB
        · exact hf.2 t c hA
        · rw [List.mem_singleton] at hB
          cases hB
      | (m + 2) =>
        by_cases hc3 : m + 2 ≤ 3
        · have heq : stepTextCore s e =
              { textHeadFlush s with current_slide_title := some e.text } := by
            simp [stepTextCore, hh, hl, hc3]
          rw [heq]; exact hf
        · have heq : stepTextCore s e = textHeadFlush s := by
            simp [stepTextCore, hh, hl, hc3]
          rw [heq]; exact hf
  by_cases hli : e.type = "list_item"
  · by_cases h2 : 2 < (pyLStrip bulletStripChars e.text).length
    · have heq : stepTextCore s e = { s with current_content :=
          s.current_content ++ ["- " ++ pyLStrip bulletStripChars e.text] } := by
        simp [stepTextCore, hh, hli, h2]
      rw [heq]
      refine ⟨?_, h.2⟩
      intro str hstr
      rcases List.mem_append.mp hstr with hA | hB
      · exact h.1 str hA
      · rw [List.mem_singleton] at hB
        subst hB
        exact ⟨e, he, Or.inl ⟨hli, h2, rfl⟩⟩
    · have heq : stepTextCore s e = s := by simp [stepTextCore, hh, hli, h2]
      rw [heq]; exact h
  by_cases hp : e.type = "paragraph"
  · by_cases h20 : 20 < (pyStrip e.text).length
    · by_cases h200 : (pyStrip e.text).length < 200
      · have heq : stepTextCore s e = { s with current_content :=
            s.current_content ++ ["- " ++ pyStrip e.text] } := by
          simp [stepTextCore, hh, hli, hp, h20, h200]
        rw [heq]
        refine ⟨?_, h.2⟩
        intro str hstr
        rcases List.mem_append.mp hstr with hA | hB
        · exact h.1 str hA
        · rw [List.mem_singleton] at hB
          subst hB
          exact ⟨e, he, Or.inr ⟨hp, h20, Or.inl ⟨h200, rfl⟩⟩⟩
      · have heq : stepTextCore s e = { s with current_content :=
            s.current_content ++ ["\n" ++ pyStrip e.text ++ "\n"] } := by
          simp [stepTextCore, hh, hli, hp, h20, h200]
        rw [heq]
        refine ⟨?_, h.2⟩
        intro str hstr
        rcases List.mem_append.mp hstr with hA | hB
        · exact h.1 str hA
        · rw [List.mem_singleton] at hB
          subst hB
          exact ⟨e, he, Or.inr ⟨hp, h20, Or.inr ⟨by omega, rfl⟩⟩⟩
    · have heq : stepTextCore s e = s := by simp [stepTextCore, hh, hli, hp, h20]
      rw [heq]; exact h
  · have heq : stepTextCore s e = s := by simp [stepTextCore, hh, hli, hp]
    rw [heq]; exact h

theorem stepText_prov (xs : List LayoutElement) (s : TextState) (e : LayoutElement)
    (he : e ∈ xs) (h : textProv xs s) : textProv xs (stepText s e) := by
  unfold stepText
  by_cases ht : e.type = "title"
  · rw [if_pos ht]; exact h
  · rw [if_neg ht]
    exact checkFlushText_prov xs _ (stepTextCore_prov xs s e he h)

theorem foldl_stepText_prov (xs : List LayoutElement) :
    ∀ (l : List LayoutElement), (∀ e ∈ l, e ∈ xs) →
      ∀ s, textProv xs s → textProv xs (l.foldl stepText s) := by
  intro l
  induction l with
  | nil => intro _ s h; exact h
  | cons e l ih =>
    intro hsub s h
    exact ih (fun e2 he2 => hsub e2 (List.mem_cons_of_mem e he2)) (stepText s e)
      (stepText_prov xs s e (hsub e (List.mem_cons_self e l)) h)

/-- C6: a paragraph element whose trimmed text has length ≤ 20
contributes to no emitted group in either grouping implementation.
For the JSON exporter its presence anywhere in the stream leaves the
entire slide output (items and speaker notes alike) unchanged.  For the
text exporter, every string of every written slide is the rendering of
a qualifying element (`goodItem`), and no paragraph of trimmed length
≤ 20 qualifies. -/
theorem claim_C6 :
    (∀ p : LayoutElement, p.type = "paragraph" → (pyStrip p.text).length ≤ 20 →
      ∀ (logo : Option String) (l1 l2 : List LayoutElement) (tables : List String),
        build_slides logo (l1 ++ p :: l2) tables = build_slides logo (l1 ++ l2) tables) ∧
    ∀ (brand title : String) (xs : List LayoutElement) (tables : List String)
      (t : String) (c : List String),
      TextEvent.slide t c ∈ export_text_events brand title xs tables →
      ∀ str ∈ c, goodItem xs str := by
  constructor
  · intro p hp hlen logo l1 l2 tables
    exact build_slides_insert p (fun s => stepJson_drop_para s p hp hlen)
      (by rw [hp]; decide) (by rw [hp]; decide) logo l1 l2 tables
  · intro brand title xs tables t c hmem
    have h0 : textProv xs { events := [TextEvent.cover title brand] } := by
      refine ⟨by simp, ?_⟩
      intro t2 c2 hc
      rw [List.mem_singleton] at hc
      cases hc
    have h1 := foldl_stepText_prov xs xs (fun _ he => he)
      { events := [TextEvent.cover title brand] } h0
    set s := xs.foldl stepText { events := [TextEvent.cover title brand] } with hs
    have h2 : textProv xs (textHeadFlush s) := textHeadFlush_prov xs s h1
    simp only [export_text_events, ← hs] at hmem
    rcases List.mem_append.mp hmem with hA | hB
    · rcases List.mem_append.mp hA with hA1 | hA2
      · exact h2.2 t c hA1
      · rw [List.mem_map] at hA2
        obtain ⟨it, _, heq⟩ := hA2
        cases heq
    · rw [List.mem_singleton] at hB
      cases hB

theorem claim_C6_witness :
    build_slides none
      [{ type := "heading", text := "Topic", level := some 2 },
       { type := "paragraph", text := "too short" },
       { type := "list_item", text := "Hello world item" }] [] =
    build_slides none
      [{ type := "heading", text := "Topic", level := some 2 },
       { type := "list_item", text := "Hello world item" }] [] ∧
    goodItem
      [{ type := "heading", text := "Topic", level := some 2 },
       { type := "list_item", text := "Hello world item" }]
      "- Hello world item" := by
  constructor
  · exact claim_C6.1 { type := "paragraph", text := "too short" } rfl (by decide)
      none [{ type := "heading", text := "Topic", level := some 2 }]
      [{ type := "list_item", text := "Hello world item" }] []
  · exact claim_C6.2 "B" "T"
      [{ type := "heading", text := "Topic", level := some 2 },
       { type := "list_item", text := "Hello world item" }] []
      "Topic" ["- Hello world item"] (by decide) "- Hello world item" (by decide)

/-! ### The bullet-capacity overflow claim -/

/-- C1 counterexample: on `[heading(level 2, "Topic")]` followed by
seven list items, the JSON grouping does emit two content groups titled
`"Topic"` with 6 and 1 bullets — but the second is byte-identical
(the very same `GammaSlide` record, title exactly `"Topic"`, no extra
field) to the sole content group produced for a one-item input that
needs no continuation.  `GammaSlide` has no continuation field, so
nothing in the output marks the second group `continuation = true`. -/
theorem claim_C1_counterexample :
    (build_slides none
      [{ type := "heading", text := "Topic", level := some 2 },
       { type := "list_item", text := "Alpha" }, { type := "list_item", text := "Bravo" },
       { type := "list_item", text := "Charlie" }, { type := "list_item", text := "Delta" },
       { type := "list_item", text := "Echo" }, { type := "list_item", text := "Foxtrot" },
       { type := "list_item", text := "Golf" }] []).filter
      (fun sl => sl.type == "bullets") =
      [create_bullets_slide "Topic"
        ["Alpha", "Bravo", "Charlie", "Delta", "Echo", "Foxtrot"] none,
       create_bullets_slide "Topic" ["Golf"] none] ∧
    (build_slides none
      [{ type := "heading", text := "Topic", level := some 2 },
       { type := "list_item", text := "Golf" }] []).filter
      (fun sl => sl.type == "bullets") =
      [create_bullets_slide "Topic" ["Golf"] none] := by decide

/-- C1 (amended): given `heading(level 2, "Topic")` followed by seven
list items whose cleaned texts are longer than 2 characters, the JSON
grouping emits exactly two content groups, both titled `"Topic"`,
holding 6 and 1 bullets respectively; the second group carries no
continuation marking — it is an ordinary bullets slide with the same
unsuffixed title (the data model has no `continuation` field). -/
theorem claim_C1 (t1 t2 t3 t4 t5 t6 t7 : String)
    (h1 : 2 < (pyLStrip bulletStripChars t1).length)
    (h2 : 2 < (pyLStrip bulletStripChars t2).length)
    (h3 : 2 < (pyLStrip bulletStripChars t3).length)
    (h4 : 2 < (pyLStrip bulletStripChars t4).length)
    (h5 : 2 < (pyLStrip bulletStripChars t5).length)
    (h6 : 2 < (pyLStrip bulletStripChars t6).length)
    (h7 : 2 < (pyLStrip bulletStripChars t7).length)
    (logo : Option String) :
    (build_slides logo
      [{ type := "heading", text := "Topic", level := some 2 },
       { type := "list_item", text := t1 }, { type := "list_item", text := t2 },
       { type := "list_item", text := t3 }, { type := "list_item", text := t4 },
       { type := "list_item", text := t5 }, { type := "list_item", text := t6 },
       { type := "list_item", text := t7 }] []).filter
      (fun sl => sl.type == "bullets") =
      [create_bullets_slide "Topic"
        [pyLStrip bulletStripChars t1, pyLStrip bulletStripChars t2,
         pyLStrip bulletStripChars t3, pyLStrip bulletStripChars t4,
         pyLStrip bulletStripChars t5, pyLStrip bulletStripChars t6] none,
       create_bullets_slide "Topic" [pyLStrip bulletStripChars t7] none] := by
  simp [build_slides, stepJson, flushJson, detect_title, detect_subtitle,
    detect_subtitle_go, create_cover_slide, create_bullets_slide,
    create_section_slide, h1, h2, h3, h4, h5, h6, h7, levelLE, pyJoin,
    max_bullets_per_slide, max_paragraphs_per_slide, List.filter]

theorem claim_C1_witness :
    (build_slides none
      [{ type := "heading", text := "Topic", level := some 2 },
       { type := "list_item", text := "Uno" }, { type := "list_item", text := "Dos" },
       { type := "list_item", text := "Tres" }, { type := "list_item", text := "Cuatro" },
       { type := "list_item", text := "Cinco" }, { type := "list_item", text := "Seis" },
       { type := "list_item", text := "Siete" }] []).filter
      (fun sl => sl.type == "bullets") =
      [create_bullets_slide "Topic"
        ["Uno", "Dos", "Tres", "Cuatro", "Cinco", "Seis"] none,
       create_bullets_slide "Topic" ["Siete"] none] :=
  (claim_C1 "Uno" "Dos" "Tres" "Cuatro" "Cinco" "Seis" "Siete"
    (by decide) (by decide) (by decide) (by decide) (by decide) (by decide)
    (by decide) none).trans (by decide)

end MsOcr
